import Mathlib

/-!
Verification development for the state-store facade and the room-list
sorter pipeline of this repository.

The definitions below are a shallow embedding of the Rust sources:

- crates/matrix-sdk-base/src/store/mod.rs
  (BaseStateStore: set_or_reload_session, load_room_infos,
   get_or_create_room, forget_room; StateChanges and its accumulation
   helpers add_state_event, add_redaction, add_room_account_data,
   add_receipts, add_room, add_presence_event, add_stripped_member)
- crates/matrix-sdk-ui/src/room_list_service/sorters/tag.rs
  (TagMatcher, new_sorter, room_to_tag_weight)
- crates/matrix-sdk-ui/src/room_list_service/sorters/unread.rs
  (UnreadMatcher, new_sorter, room_to_unread_weight,
   counts_to_unread_weight)
- crates/matrix-sdk-ui/src/room_list_service/sc_room_list.rs
  (get_sort_by_vec, get_sc_sort_box)
- crates/matrix-sdk/src/schildi.rs (ScSortOrder)

Rust BTreeMap values are embedded as association lists with
string keys; BTreeMap insertion replaces the value at an existing key in
place and otherwise adds a binding, which the btm functions below mirror.
Asynchronous backend calls (the DynStateStore) are embedded as a record of
result values, and the state mutations a store operation performs are
additionally recorded in an explicit event trace so that ordering claims
can be stated.
-/

/-! ## Association-list model of BTreeMap with string keys -/

/-- Lookup in a string-keyed association list, as BTreeMap get. -/
def btmGet {V : Type u} : List (String × V) → String → Option V
  | [], _ => none
  | (k1, v1) :: rest, k => if k1 = k then some v1 else btmGet rest k

/-- Replace the binding at a key (in place) when present, otherwise append a
fresh binding whose value is built from the absent lookup; this is the
shallow embedding of the Rust entry-or-default-then-mutate pattern. -/
def btmAlter {V : Type u} : List (String × V) → String → (Option V → V) → List (String × V)
  | [], k, f => [(k, f none)]
  | (k1, v1) :: rest, k, f =>
    if k1 = k then (k, f (some v1)) :: rest else (k1, v1) :: btmAlter rest k f

/-- BTreeMap insert: replace the value at the key or add a binding. -/
def btmInsert {V : Type u} (m : List (String × V)) (k : String) (v : V) : List (String × V) :=
  btmAlter m k (fun _ => v)

/-- BTreeMap remove: drop the binding at the key, if any. -/
def btmRemove {V : Type u} : List (String × V) → String → List (String × V)
  | [], _ => []
  | (k1, v1) :: rest, k => if k1 = k then rest else (k1, v1) :: btmRemove rest k

/-- The list of keys of an association list. -/
def btmKeys {V : Type u} (m : List (String × V)) : List String :=
  m.map Prod.fst

/-- How many bindings an association list holds at a given key. -/
def btmKeyCount {V : Type u} (m : List (String × V)) (k : String) : Nat :=
  m.countP (fun p => decide (p.1 = k))

/-- The BTreeMap representation invariant: one binding per key. -/
def btmNodupKeys {V : Type u} (m : List (String × V)) : Prop :=
  (btmKeys m).Nodup

theorem btmGet_alter_self {V : Type u} (m : List (String × V)) (k : String) (f : Option V → V) :
    btmGet (btmAlter m k f) k = some (f (btmGet m k)) := by
  induction m with
  | nil => simp [btmAlter, btmGet]
  | cons p rest ih =>
    obtain ⟨k1, v1⟩ := p
    by_cases h : k1 = k
    · simp [btmAlter, btmGet, h]
    · simp [btmAlter, btmGet, h, ih]

theorem btmGet_alter_ne {V : Type u} (m : List (String × V)) (k k' : String) (f : Option V → V)
    (h : k' ≠ k) : btmGet (btmAlter m k f) k' = btmGet m k' := by
  induction m with
  | nil => simp [btmAlter, btmGet, Ne.symm h]
  | cons p rest ih =>
    obtain ⟨k1, v1⟩ := p
    by_cases h1 : k1 = k
    · subst h1
      simp [btmAlter, btmGet, Ne.symm h]
    · simp only [btmAlter, if_neg h1]
      by_cases h2 : k1 = k'
      · simp [btmGet, h2]
      · simp [btmGet, h2, ih]

theorem btmKeys_cons {V : Type u} (k1 : String) (v1 : V) (rest : List (String × V)) :
    btmKeys ((k1, v1) :: rest) = k1 :: btmKeys rest := rfl

theorem btmKeys_alter {V : Type u} (m : List (String × V)) (k : String) (f : Option V → V) :
    btmKeys (btmAlter m k f) = if k ∈ btmKeys m then btmKeys m else btmKeys m ++ [k] := by
  induction m with
  | nil => simp [btmAlter, btmKeys]
  | cons p rest ih =>
    obtain ⟨k1, v1⟩ := p
    by_cases h : k1 = k
    · subst h
      simp [btmAlter, btmKeys]
    · simp only [btmAlter, if_neg h, btmKeys_cons, ih]
      have hkk1 : ¬ k = k1 := fun hh => h hh.symm
      by_cases hmem : k ∈ btmKeys rest
      · simp [hmem]
      · simp [hmem, hkk1]

theorem btmNodupKeys_alter {V : Type u} (m : List (String × V)) (k : String) (f : Option V → V)
    (h : btmNodupKeys m) : btmNodupKeys (btmAlter m k f) := by
  unfold btmNodupKeys at h ⊢
  rw [btmKeys_alter]
  by_cases hmem : k ∈ btmKeys m
  · simpa [hmem] using h
  · simp only [if_neg hmem]
    simpa [List.nodup_append, hmem] using h

theorem btmKeyCount_eq_zero {V : Type u} (m : List (String × V)) (k : String)
    (h : k ∉ btmKeys m) : btmKeyCount m k = 0 := by
  induction m with
  | nil => simp [btmKeyCount]
  | cons p rest ih =>
    obtain ⟨k1, v1⟩ := p
    rw [btmKeys_cons, List.mem_cons, not_or] at h
    have h1 : ¬ (k1 = k) := fun hh => h.1 hh.symm
    simp only [btmKeyCount, List.countP_cons] at ih ⊢
    simp [h1, ih h.2]

theorem btmKeyCount_alter_self {V : Type u} (m : List (String × V)) (k : String)
    (f : Option V → V) (h : btmNodupKeys m) : btmKeyCount (btmAlter m k f) k = 1 := by
  induction m with
  | nil => simp [btmAlter, btmKeyCount, List.countP_cons]
  | cons p rest ih =>
    obtain ⟨k1, v1⟩ := p
    unfold btmNodupKeys at h
    rw [btmKeys_cons, List.nodup_cons] at h
    by_cases h1 : k1 = k
    · subst h1
      have h0 : btmKeyCount rest k1 = 0 := btmKeyCount_eq_zero rest k1 h.1
      simp only [btmKeyCount, List.countP_cons] at h0 ⊢
      simp only [btmAlter, if_pos rfl, List.countP_cons]
      simp [h0]
    · have h2 := ih h.2
      simp only [btmKeyCount, List.countP_cons] at h2 ⊢
      simp only [btmAlter, if_neg h1, List.countP_cons]
      simp [h2, h1]

theorem btmGet_mem {V : Type u} (m : List (String × V)) (k : String) (v : V)
    (h : btmGet m k = some v) : (k, v) ∈ m := by
  induction m with
  | nil => simp [btmGet] at h
  | cons p rest ih =>
    obtain ⟨k1, v1⟩ := p
    by_cases h1 : k1 = k
    · subst h1
      simp [btmGet] at h
      simp [h]
    · simp [btmGet, h1] at h
      exact List.mem_cons_of_mem _ (ih h)

theorem btmMem_alter {V : Type u} (m : List (String × V)) (k : String) (f : Option V → V)
    (p : String × V) (h : p ∈ btmAlter m k f) :
    p ∈ m ∨ p = (k, f (btmGet m k)) := by
  induction m with
  | nil => simp [btmAlter] at h; simp [h, btmGet]
  | cons q rest ih =>
    obtain ⟨k1, v1⟩ := q
    by_cases h1 : k1 = k
    · subst h1
      simp only [btmAlter, if_pos rfl] at h
      rcases List.mem_cons.mp h with h2 | h2
      · right; simpa [btmGet] using h2
      · left; exact List.mem_cons_of_mem _ h2
    · simp only [btmAlter, if_neg h1] at h
      rcases List.mem_cons.mp h with h2 | h2
      · left; simp [h2]
      · rcases ih h2 with h3 | h3
        · left; exact List.mem_cons_of_mem _ h3
        · right; simpa [btmGet, h1] using h3

theorem btmGet_insert_self {V : Type u} (m : List (String × V)) (k : String) (v : V) :
    btmGet (btmInsert m k v) k = some v := by
  simpa [btmInsert] using btmGet_alter_self m k (fun _ => v)

theorem btmNodupKeys_insert {V : Type u} (m : List (String × V)) (k : String) (v : V)
    (h : btmNodupKeys m) : btmNodupKeys (btmInsert m k v) :=
  btmNodupKeys_alter m k _ h

theorem btmKeyCount_insert_self {V : Type u} (m : List (String × V)) (k : String) (v : V)
    (h : btmNodupKeys m) : btmKeyCount (btmInsert m k v) k = 1 :=
  btmKeyCount_alter_self m k _ h

/-! ## Data model -/

/-- Modelled from the spec: the membership state enum of a room
(invited / joined / left); rooms/normal.rs is not under src/, and only the
Invited variant is inspected by the code under verification. -/
inductive RoomState where
  | joined
  | left
  | invited
  deriving DecidableEq, Repr

/-- A persisted room record (RoomInfo). Besides the room id, its remaining
metadata is irrelevant to the verified operations and is collapsed into an
opaque payload that migrations may rewrite. -/
structure RoomInfo where
  room_id : String
  payload : Nat
  deriving DecidableEq, Repr

/-- The session identity: a user id and a device id (SessionMeta). -/
structure SessionMeta where
  user_id : String
  device_id : String
  deriving DecidableEq, Repr

/-- A live room object, tagged with how it was constructed: restored from a
persisted record (Room::restore) or freshly created (Room::new). -/
inductive Room where
  | restored (user_id : String) (info : RoomInfo)
  | fresh (user_id : String) (room_id : String) (state : RoomState)
  deriving DecidableEq, Repr

/-- The room id accessor of a live room object. -/
def Room.room_id : Room → String
  | .restored _ info => info.room_id
  | .fresh _ id _ => id

/-- Backend-specific store errors, collapsed to their message. -/
def StoreErr : Type := String

instance : DecidableEq StoreErr := fun a b => (inferInstance : DecidableEq String) a b

/-- The pieces of an AnySyncStateEvent that add_state_event keys on. -/
structure StateEventData where
  event_type : String
  state_key : String
  deriving DecidableEq, Repr

/-- The StateChanges batch: one synchronization cycle of accumulated
mutations, each field a BTreeMap keyed as in the source. The payload type
of the raw event values is a parameter. -/
structure StateChanges (A : Type) where
  sync_token : Option String
  account_data : List (String × A)
  presence : List (String × A)
  profiles : List (String × List (String × A))
  profiles_to_delete : List (String × List String)
  state : List (String × List (String × List (String × A)))
  room_account_data : List (String × List (String × A))
  room_infos : List (String × RoomInfo)
  receipts : List (String × A)
  redactions : List (String × List (String × A))
  stripped_state : List (String × List (String × List (String × A)))
  ambiguity_maps : List (String × List (String × List String))
  deriving DecidableEq

/-- The Default instance of StateChanges: everything empty. -/
def StateChanges.mkDefault (A : Type) : StateChanges A :=
  { sync_token := none
    account_data := []
    presence := []
    profiles := []
    profiles_to_delete := []
    state := []
    room_account_data := []
    room_infos := []
    receipts := []
    redactions := []
    stripped_state := []
    ambiguity_maps := [] }

/-- StateChanges::new: the default batch carrying a sync token. -/
def StateChanges.new (A : Type) (sync_token : String) : StateChanges A :=
  { StateChanges.mkDefault A with sync_token := some sync_token }

/-- StateChanges::add_presence_event: insert at the event sender. -/
def StateChanges.add_presence_event {A : Type} (b : StateChanges A)
    (sender : String) (raw_event : A) : StateChanges A :=
  { b with presence := btmInsert b.presence sender raw_event }

/-- StateChanges::add_room: insert the RoomInfo at its room id. -/
def StateChanges.add_room {A : Type} (b : StateChanges A) (room : RoomInfo) :
    StateChanges A :=
  { b with room_infos := btmInsert b.room_infos room.room_id room }

/-- StateChanges::add_room_account_data: insert at (room id, event type). -/
def StateChanges.add_room_account_data {A : Type} (b : StateChanges A)
    (room_id : String) (event_type : String) (raw_event : A) : StateChanges A :=
  let m := btmAlter b.room_account_data room_id
    (fun o => btmInsert (o.getD []) event_type raw_event)
  { b with room_account_data := m }

/-- StateChanges::add_stripped_member: insert at
(room id, the m.room.member event type, user id). -/
def StateChanges.add_stripped_member {A : Type} (b : StateChanges A)
    (room_id : String) (user_id : String) (event : A) : StateChanges A :=
  let m := btmAlter b.stripped_state room_id
    (fun o => btmAlter (o.getD []) "m.room.member"
      (fun o2 => btmInsert (o2.getD []) user_id event))
  { b with stripped_state := m }

/-- StateChanges::add_state_event: insert at
(room id, event type, state key). -/
def StateChanges.add_state_event {A : Type} (b : StateChanges A)
    (room_id : String) (event : StateEventData) (raw_event : A) : StateChanges A :=
  let m := btmAlter b.state room_id
    (fun o => btmAlter (o.getD []) event.event_type
      (fun o2 => btmInsert (o2.getD []) event.state_key raw_event))
  { b with state := m }

/-- StateChanges::add_redaction: insert at (room id, redacted event id). -/
def StateChanges.add_redaction {A : Type} (b : StateChanges A)
    (room_id : String) (redacted_event_id : String) (redaction : A) : StateChanges A :=
  let m := btmAlter b.redactions room_id
    (fun o => btmInsert (o.getD []) redacted_event_id redaction)
  { b with redactions := m }

/-- StateChanges::add_receipts: insert at the room id. -/
def StateChanges.add_receipts {A : Type} (b : StateChanges A)
    (room_id : String) (event : A) : StateChanges A :=
  { b with receipts := btmInsert b.receipts room_id event }

/-- One binding per key in a two-level nested BTreeMap. -/
def btmNodupKeys2 {V : Type u} (m : List (String × List (String × V))) : Prop :=
  btmNodupKeys m ∧ ∀ p ∈ m, btmNodupKeys p.2

/-- One binding per key in a three-level nested BTreeMap. -/
def btmNodupKeys3 {V : Type u} (m : List (String × List (String × List (String × V)))) : Prop :=
  btmNodupKeys m ∧ ∀ p ∈ m, btmNodupKeys2 p.2

/-- The BTreeMap representation invariant for every map of a batch: at most
one binding per (composite) key. -/
def StateChanges.WFKeys {A : Type} (b : StateChanges A) : Prop :=
  btmNodupKeys b.account_data ∧
  btmNodupKeys b.presence ∧
  btmNodupKeys2 b.profiles ∧
  btmNodupKeys b.profiles_to_delete ∧
  btmNodupKeys3 b.state ∧
  btmNodupKeys2 b.room_account_data ∧
  btmNodupKeys b.room_infos ∧
  btmNodupKeys b.receipts ∧
  btmNodupKeys2 b.redactions ∧
  btmNodupKeys3 b.stripped_state ∧
  btmNodupKeys2 b.ambiguity_maps

/-! ## The session store facade (BaseStateStore) -/

/-- The Durable Store backend (DynStateStore) behind the facade, embedded as
the results its asynchronous calls produce: the persisted room records
(get_room_infos), the outcome of persisting a batch (save_changes), the
stored sync token (get_kv_data for the SyncToken key, already converted),
and the outcome of removing a room (remove_room). -/
structure Backend (A : Type) where
  get_room_infos : Except StoreErr (List RoomInfo)
  save_changes : StateChanges A → Except StoreErr Unit
  get_kv_sync_token : Except StoreErr (Option String)
  remove_room : String → Except StoreErr Unit

/-- The mutable state owned by a BaseStateStore instance: the
single-assignment session identity (OnceCell), the sync token and the
observable room table. -/
structure StoreState where
  session_meta : Option SessionMeta
  sync_token : Option String
  rooms : List (String × Room)
  deriving DecidableEq

/-- One observable state mutation performed by a store operation; operations
additionally return the list of mutations in the order they performed
them, so that ordering properties can be stated. -/
inductive StoreEvent where
  | insertRoom (room_id : String)
  | removeRoomFromTable (room_id : String)
  | durableRemoveRoom (room_id : String)
  | setSyncToken (token : Option String)
  | setSessionMeta
  deriving DecidableEq, Repr

/-- The outcome of an operation that can also hit a fatal programming error:
it returns a value, returns a recoverable error, or panics. -/
inductive PanicOr (E : Type) (A : Type) where
  | ok (a : A)
  | err (e : E)
  | panicked (msg : String)
  deriving DecidableEq, Repr

/-- The StateChanges batch that load_room_infos builds to re-persist
migrated room records: only its room_infos map is populated, collected
from the migrated records keyed by room id. -/
def migrationChanges (A : Type) (migrated : List RoomInfo) : StateChanges A :=
  { StateChanges.mkDefault A with
      room_infos := migrated.foldl (fun m i => btmInsert m i.room_id i) [] }

/-- BaseStateStore::load_room_infos. A migration pass is a function from a
RoomInfo to the (possibly rewritten) RoomInfo together with whether it was
migrated (RoomInfo::apply_migrations). Migrated records are re-persisted
through save_changes; a failure of that write is only logged (the warning
is returned as the second component) and the migrated values are still
returned. -/
def load_room_infos {A : Type} (be : Backend A) (migrate : RoomInfo → RoomInfo × Bool) :
    Except StoreErr (List RoomInfo × Option StoreErr) :=
  match be.get_room_infos with
  | .error e => .error e
  | .ok room_infos0 =>
    let pairs := room_infos0.map migrate
    let room_infos := pairs.map Prod.fst
    let migrated_room_infos := (pairs.filter Prod.snd).map Prod.fst
    if migrated_room_infos.isEmpty then
      .ok (room_infos, none)
    else
      match be.save_changes (migrationChanges A migrated_room_infos) with
      | .ok _ => .ok (room_infos, none)
      | .error e => .ok (room_infos, some e)

/-- BaseStateStore::set_or_reload_session: load (and migrate) the persisted
room records, restore a Room per record into the room table, load the sync
token, and finally commit the session identity; committing panics when the
identity was already set (OnceCell::set followed by expect). Returns the
outcome, the resulting store state and the trace of mutations. -/
def set_or_reload_session {A : Type} (be : Backend A)
    (migrate : RoomInfo → RoomInfo × Bool) (session_meta : SessionMeta)
    (st : StoreState) : PanicOr StoreErr Unit × StoreState × List StoreEvent :=
  match load_room_infos be migrate with
  | .error e => (.err e, st, [])
  | .ok (room_infos, _warning) =>
    let rooms' := room_infos.foldl
      (fun rs info => btmInsert rs (Room.restored session_meta.user_id info).room_id
        (Room.restored session_meta.user_id info)) st.rooms
    let tr := room_infos.map (fun info => StoreEvent.insertRoom info.room_id)
    match be.get_kv_sync_token with
    | .error e => (.err e, { st with rooms := rooms' }, tr)
    | .ok token =>
      let st' : StoreState := { st with rooms := rooms', sync_token := token }
      let tr' := tr ++ [StoreEvent.setSyncToken token]
      match st.session_meta with
      | some _ => (.panicked "Session Meta was already set", st', tr')
      | none =>
        (.ok (), { st' with session_meta := some session_meta },
         tr' ++ [StoreEvent.setSessionMeta])

/-- Modelled from the spec: ObservableMap::get_or_create
(store/observable_map.rs is not under src/). When the key is present the
existing entry is returned and the table is unchanged; when it is absent
the freshly constructed entry is inserted and returned. -/
def obsMapGetOrCreate {V : Type} (m : List (String × V)) (k : String)
    (mk : Unit → V) : V × List (String × V) :=
  match btmGet m k with
  | some v => (v, m)
  | none =>
    let v := mk ()
    (v, btmInsert m k v)

/-- BaseStateStore::get_or_create_room: panics when no session identity has
been committed (expect on the OnceCell); otherwise looks the room up in the
observable table, creating and inserting a fresh Room when absent. -/
def get_or_create_room (room_id : String) (room_type : RoomState)
    (st : StoreState) : PanicOr StoreErr (Room × StoreState) :=
  match st.session_meta with
  | none => .panicked "Creating room while not being logged in"
  | some meta =>
    let r := obsMapGetOrCreate st.rooms room_id
      (fun _ => Room.fresh meta.user_id room_id room_type)
    .ok (r.1, { st with rooms := r.2 })

/-- BaseStateStore::forget_room: first remove the room from the durable
store, propagating a failure immediately; only on success remove it from
the in-memory observable table. Returns the outcome, the resulting state
and the trace. -/
def forget_room {A : Type} (be : Backend A) (room_id : String) (st : StoreState) :
    Except StoreErr Unit × StoreState × List StoreEvent :=
  match be.remove_room room_id with
  | .error e => (.error e, st, [StoreEvent.durableRemoveRoom room_id])
  | .ok _ =>
    (.ok (), { st with rooms := btmRemove st.rooms room_id },
     [StoreEvent.durableRemoveRoom room_id, StoreEvent.removeRoomFromTable room_id])

/-! ## The room-list sorter pipeline -/

/-- A room handle as seen by the room-list service sorters, with the read
accessors the sorters consult: id and membership state, the favourite and
low-priority tags, the marked-unread flag, the client-computed unread
counters (num_unread_mentions, num_unread_notifications,
num_unread_messages), the server-reported counters
(unread_notification_counts().notification_count and unread_count()),
whether the latest event is a local echo, the recency timestamp and the
display name. -/
structure RoomListItem where
  room_id : String
  state : RoomState
  is_favourite : Bool
  is_low_priority : Bool
  is_marked_unread : Bool
  num_unread_mentions : Nat
  num_unread_notifications : Nat
  num_unread_messages : Nat
  server_notification_count : Nat
  server_unread_count : Option Nat
  has_local_latest_event : Bool
  recency_timestamp : Nat
  display_name : String
  deriving DecidableEq, Repr

/-- The id accessor used by the unread sorter (Room::id). -/
def RoomListItem.id (room : RoomListItem) : String :=
  room.room_id

/-- A sorter: a comparator over two room handles. -/
def Sorter : Type := RoomListItem → RoomListItem → Ordering

/-- sorters/tag.rs room_to_tag_weight: invited rooms weigh 0; otherwise
favourites weigh 1 when pin_favorites is on; otherwise low-priority rooms
weigh 3 when bury_low_priority is on; everything else weighs 2. -/
def room_to_tag_weight (room : RoomListItem) (pin_favorites bury_low_priority : Bool) : Nat :=
  if room.state = RoomState.invited then 0
  else if pin_favorites && room.is_favourite then 1
  else if bury_low_priority && room.is_low_priority then 3
  else 2

/-- sorters/tag.rs TagMatcher: its order_key produces the two weights. -/
structure TagMatcher where
  order_key : RoomListItem → RoomListItem → Nat × Nat

/-- TagMatcher::matches: rooms with equal ids compare as Greater (the
self-comparison workaround); otherwise the two weights are compared. -/
def TagMatcher.matches (m : TagMatcher) (left right : RoomListItem) : Ordering :=
  if left.room_id = right.room_id then Ordering.gt
  else
    let p := m.order_key left right
    compare p.1 p.2

/-- sorters/tag.rs new_sorter (imported as new_sorter_tag). -/
def new_sorter_tag (pin_favorites bury_low_priority : Bool) : Sorter :=
  let matcher : TagMatcher :=
    { order_key := fun left right =>
        (room_to_tag_weight left pin_favorites bury_low_priority,
         room_to_tag_weight right pin_favorites bury_low_priority) }
  fun left right => matcher.matches left right

/-- sorters/unread.rs counts_to_unread_weight: marked-unread rooms and rooms
with notifying or highlighted messages weigh 0, rooms with only a generic
unread count weigh 1, fully-read rooms weigh 2. -/
def counts_to_unread_weight (marked_unread : Bool)
    (highlight_count notification_count unread_count : Nat) : Nat :=
  if marked_unread || decide (notification_count > 0) || decide (highlight_count > 0) then 0
  else if unread_count > 0 then 1
  else 2

/-- sorters/unread.rs room_to_unread_weight: pick the client-computed or the
server-reported notification count by configuration (mention counts are
always client-computed), and include the generic unread count only when
with_silent_unread is on. -/
def room_to_unread_weight (room : RoomListItem)
    (client_generated_counts with_silent_unread : Bool) : Nat :=
  if client_generated_counts then
    counts_to_unread_weight room.is_marked_unread room.num_unread_mentions
      room.num_unread_notifications
      (if with_silent_unread then room.num_unread_messages else 0)
  else
    counts_to_unread_weight room.is_marked_unread room.num_unread_mentions
      room.server_notification_count
      (if with_silent_unread then (room.server_unread_count.getD 0) else 0)

/-- sorters/unread.rs UnreadMatcher. -/
structure UnreadMatcher where
  order_key : RoomListItem → RoomListItem → Nat × Nat

/-- UnreadMatcher::matches: same self-comparison workaround as the tag
matcher, then weight comparison. -/
def UnreadMatcher.matches (m : UnreadMatcher) (left right : RoomListItem) : Ordering :=
  if left.id = right.id then Ordering.gt
  else
    let p := m.order_key left right
    compare p.1 p.2

/-- sorters/unread.rs new_sorter (imported as new_sorter_unread). -/
def new_sorter_unread (client_generated_counts with_silent_unread : Bool) : Sorter :=
  let matcher : UnreadMatcher :=
    { order_key := fun left right =>
        (room_to_unread_weight left client_generated_counts with_silent_unread,
         room_to_unread_weight right client_generated_counts with_silent_unread) }
  fun left right => matcher.matches left right

/-- Modelled from the spec: the recency sorter (sorters/recency.rs is not
under src/) orders most recently active first, with the same equal-id
workaround the tag and unread sorters refer to. -/
def new_sorter_recency : Sorter :=
  fun left right =>
    if left.room_id = right.room_id then Ordering.gt
    else compare right.recency_timestamp left.recency_timestamp

/-- Modelled from the spec: the name sorter (sorters/name.rs is not under
src/) is the final lexicographic tie-break on display names. -/
def new_sorter_name : Sorter :=
  fun left right => compare left.display_name right.display_name

/-- Modelled from the spec: the latest-event sorter
(sorters/latest_event.rs is not under src/) puts rooms whose latest event
is a local echo first. -/
def new_sorter_latest_event : Sorter :=
  fun left right =>
    compare (if left.has_local_latest_event then 0 else 1)
      (if right.has_local_latest_event then (0 : Nat) else 1)

/-- Collapse a list of comparison results to the first non-equal one. -/
def lexJoin : List Ordering → Ordering
  | [] => Ordering.eq
  | o :: rest =>
    match o with
    | Ordering.eq => lexJoin rest
    | Ordering.lt => Ordering.lt
    | Ordering.gt => Ordering.gt

/-- Modelled from the spec: the lexicographic combinator
(sorters/lexicographic.rs is not under src/) evaluates the sorters in
order and returns the first non-equal result, or equal when every sorter
reports equal. -/
def new_sorter_lexicographic (sorters : List Sorter) : Sorter :=
  fun left right => lexJoin (sorters.map (fun s => s left right))

/-- crates/matrix-sdk/src/schildi.rs ScSortOrder: the user-controlled
sort-order settings. -/
structure ScSortOrder where
  by_unread : Bool
  pin_favorites : Bool
  bury_low_priority : Bool
  client_generated_unread : Bool
  with_silent_unread : Bool
  deriving DecidableEq, Repr

/-- sc_room_list.rs get_sort_by_vec: the tag sorter always comes first, the
unread sorter is appended when by_unread is set, the latest-event sorter
when its flag is set, then the recency sorter and the name sorter. -/
def get_sort_by_vec (sort_order : ScSortOrder) (enable_latest_event_sorter : Bool) :
    List Sorter :=
  [new_sorter_tag sort_order.pin_favorites sort_order.bury_low_priority]
    ++ (if sort_order.by_unread then
          [new_sorter_unread sort_order.client_generated_unread sort_order.with_silent_unread]
        else [])
    ++ (if enable_latest_event_sorter then [new_sorter_latest_event] else [])
    ++ [new_sorter_recency, new_sorter_name]

/-- sc_room_list.rs get_sc_sort_box: the canonical sorter stack combined
lexicographically. -/
def get_sc_sort_box (setting : ScSortOrder) (enable_latest_event_sorter : Bool) : Sorter :=
  new_sorter_lexicographic (get_sort_by_vec setting enable_latest_event_sorter)

/-! ## Concrete fixtures used by the witnesses -/

/-- A persisted room record used in witnesses. -/
def exInfo : RoomInfo := { room_id := "!a:x", payload := 0 }

/-- A migration pass that touches nothing. -/
def exMigrateNone : RoomInfo → RoomInfo × Bool := fun i => (i, false)

/-- A migration pass that rewrites every record. -/
def exMigrateBump : RoomInfo → RoomInfo × Bool :=
  fun i => ({ i with payload := i.payload + 1 }, true)

/-- A backend whose calls all succeed. -/
def exBackendOk : Backend Nat :=
  { get_room_infos := Except.ok [exInfo]
    save_changes := fun _ => Except.ok ()
    get_kv_sync_token := Except.ok none
    remove_room := fun _ => Except.ok () }

/-- A backend whose save_changes fails. -/
def exBackendSaveFail : Backend Nat :=
  { get_room_infos := Except.ok [exInfo]
    save_changes := fun _ => Except.error "disk full"
    get_kv_sync_token := Except.ok none
    remove_room := fun _ => Except.ok () }

/-- A backend whose remove_room fails. -/
def exBackendRemoveFail : Backend Nat :=
  { get_room_infos := Except.ok []
    save_changes := fun _ => Except.ok ()
    get_kv_sync_token := Except.ok none
    remove_room := fun _ => Except.error "io" }

/-- A store instance before any session was committed. -/
def exStoreEmpty : StoreState :=
  { session_meta := none, sync_token := none, rooms := [] }

/-- A session identity. -/
def exMeta : SessionMeta := { user_id := "@u:x", device_id := "DEV" }

/-- A second session identity, for the second call of the lifecycle claim. -/
def exMeta2 : SessionMeta := { user_id := "@u:x", device_id := "DEVTWO" }

/-- A store instance with a committed session and one live room. -/
def exStoreReady : StoreState :=
  { session_meta := some exMeta, sync_token := none,
    rooms := [("!a:x", Room.restored "@u:x" exInfo)] }

/-- Scenario room A: joined, three unread messages, not favourite. -/
def exRoomA : RoomListItem :=
  { room_id := "!aaa:x", state := RoomState.joined, is_favourite := false
    is_low_priority := false, is_marked_unread := false
    num_unread_mentions := 0, num_unread_notifications := 0
    num_unread_messages := 3, server_notification_count := 0
    server_unread_count := some 3, has_local_latest_event := false
    recency_timestamp := 30, display_name := "Alpha" }

/-- Scenario room B: invited. -/
def exRoomB : RoomListItem :=
  { room_id := "!bbb:x", state := RoomState.invited, is_favourite := false
    is_low_priority := false, is_marked_unread := false
    num_unread_mentions := 0, num_unread_notifications := 0
    num_unread_messages := 0, server_notification_count := 0
    server_unread_count := none, has_local_latest_event := false
    recency_timestamp := 20, display_name := "Beta" }

/-- Scenario room C: joined, favourite, fully read. -/
def exRoomC : RoomListItem :=
  { room_id := "!ccc:x", state := RoomState.joined, is_favourite := true
    is_low_priority := false, is_marked_unread := false
    num_unread_mentions := 0, num_unread_notifications := 0
    num_unread_messages := 0, server_notification_count := 0
    server_unread_count := some 0, has_local_latest_event := false
    recency_timestamp := 10, display_name := "Gamma" }

/-- A silently unread room: messages but nothing notifying. -/
def exRoomSilent : RoomListItem :=
  { room_id := "!sss:x", state := RoomState.joined, is_favourite := false
    is_low_priority := true, is_marked_unread := false
    num_unread_mentions := 0, num_unread_notifications := 0
    num_unread_messages := 7, server_notification_count := 0
    server_unread_count := some 7, has_local_latest_event := false
    recency_timestamp := 5, display_name := "Silent" }

/-! ## Claim theorems -/

theorem counts_to_unread_weight_cases (mk : Bool) (hc nc uc : Nat) :
    (counts_to_unread_weight mk hc nc uc = 0 ↔ (mk = true ∨ 0 < nc ∨ 0 < hc)) ∧
    (counts_to_unread_weight mk hc nc uc = 1 ↔
      (¬(mk = true ∨ 0 < nc ∨ 0 < hc) ∧ 0 < uc)) ∧
    (counts_to_unread_weight mk hc nc uc = 2 ↔
      (¬(mk = true ∨ 0 < nc ∨ 0 < hc) ∧ uc = 0)) := by
  cases mk <;> unfold counts_to_unread_weight <;> split_ifs <;> simp_all
  all_goals omega

/-- C6: the unread weight function puts marked-unread rooms and rooms with a
positive notification or mention count in the top tier, rooms with only a
positive (included) generic unread count in the middle tier, and everything
else in the fully-read tier; with with_silent_unread disabled the generic
count is excluded, so such a room is fully-read whatever its message
count. -/
theorem unread_weight_tier_classification (cgu wsu : Bool) (room : RoomListItem) :
    (room_to_unread_weight room cgu wsu = 0 ↔
      (room.is_marked_unread = true ∨
       0 < (if cgu then room.num_unread_notifications else room.server_notification_count) ∨
       0 < room.num_unread_mentions)) ∧
    (room_to_unread_weight room cgu wsu = 1 ↔
      (¬(room.is_marked_unread = true ∨
         0 < (if cgu then room.num_unread_notifications else room.server_notification_count) ∨
         0 < room.num_unread_mentions) ∧
       0 < (if wsu then
              (if cgu then room.num_unread_messages else room.server_unread_count.getD 0)
            else 0))) ∧
    (room_to_unread_weight room cgu wsu = 2 ↔
      (¬(room.is_marked_unread = true ∨
         0 < (if cgu then room.num_unread_notifications else room.server_notification_count) ∨
         0 < room.num_unread_mentions) ∧
       (if wsu then
          (if cgu then room.num_unread_messages else room.server_unread_count.getD 0)
        else 0) = 0)) ∧
    (wsu = false → room.is_marked_unread = false →
      (if cgu then room.num_unread_notifications else room.server_notification_count) = 0 →
      room.num_unread_mentions = 0 →
      room_to_unread_weight room cgu wsu = 2) := by
  unfold room_to_unread_weight counts_to_unread_weight
  cases cgu <;> cases wsu <;> cases hm : room.is_marked_unread <;>
    simp <;> split_ifs <;> simp_all <;> omega

/-- Witness for the unread tier classification at a silently unread room
with silent counts disabled. -/
theorem unread_weight_tier_classification_witness :
    ((room_to_unread_weight exRoomSilent true false = 0 ↔
      (exRoomSilent.is_marked_unread = true ∨
       0 < (if true then exRoomSilent.num_unread_notifications
            else exRoomSilent.server_notification_count) ∨
       0 < exRoomSilent.num_unread_mentions)) ∧
     (room_to_unread_weight exRoomSilent true false = 1 ↔
      (¬(exRoomSilent.is_marked_unread = true ∨
         0 < (if true then exRoomSilent.num_unread_notifications
              else exRoomSilent.server_notification_count) ∨
         0 < exRoomSilent.num_unread_mentions) ∧
       0 < (if false then
              (if true then exRoomSilent.num_unread_messages
               else exRoomSilent.server_unread_count.getD 0)
            else 0))) ∧
     (room_to_unread_weight exRoomSilent true false = 2 ↔
      (¬(exRoomSilent.is_marked_unread = true ∨
         0 < (if true then exRoomSilent.num_unread_notifications
              else exRoomSilent.server_notification_count) ∨
         0 < exRoomSilent.num_unread_mentions) ∧
       (if false then
          (if true then exRoomSilent.num_unread_messages
           else exRoomSilent.server_unread_count.getD 0)
        else 0) = 0)) ∧
     (false = false → exRoomSilent.is_marked_unread = false →
      (if true then exRoomSilent.num_unread_notifications
       else exRoomSilent.server_notification_count) = 0 →
      exRoomSilent.num_unread_mentions = 0 →
      room_to_unread_weight exRoomSilent true false = 2)) ∧
    room_to_unread_weight exRoomSilent true false = 2 := by
  have h := unread_weight_tier_classification true false exRoomSilent
  exact ⟨h, h.2.2.2 rfl rfl rfl rfl⟩

/-- C7: with equal room ids both the tag sorter and the unread sorter
return a non-less result, for every configuration. -/
theorem equal_id_compares_not_less (pin bury cgu wsu : Bool) (left right : RoomListItem)
    (h : left.room_id = right.room_id) :
    new_sorter_tag pin bury left right ≠ Ordering.lt ∧
    new_sorter_unread cgu wsu left right ≠ Ordering.lt := by
  constructor <;>
    simp [new_sorter_tag, new_sorter_unread, TagMatcher.matches, UnreadMatcher.matches,
      RoomListItem.id, h]

/-- Witness for the equal-id convention: a room compared against itself. -/
theorem equal_id_compares_not_less_witness :
    exRoomA.room_id = exRoomA.room_id ∧
    (new_sorter_tag true true exRoomA exRoomA ≠ Ordering.lt ∧
     new_sorter_unread true true exRoomA exRoomA ≠ Ordering.lt) :=
  ⟨rfl, equal_id_compares_not_less true true true true exRoomA exRoomA rfl⟩

/-- C10: tag-tier precedence: invited rooms always get the top weight
regardless of their tags and of the configuration, and a favourite
low-priority room with both options enabled gets the favourite weight, not
the low-priority weight. -/
theorem tag_weight_precedence :
    (∀ (pin bury : Bool) (room : RoomListItem), room.state = RoomState.invited →
      room_to_tag_weight room pin bury = 0) ∧
    (∀ room : RoomListItem, room.state ≠ RoomState.invited → room.is_favourite = true →
      room.is_low_priority = true → room_to_tag_weight room true true = 1) := by
  constructor
  · intro pin bury room h
    simp [room_to_tag_weight, h]
  · intro room h hf hl
    simp [room_to_tag_weight, h, hf, hl]

/-- Witness for the tag-tier precedence at an invited favourite
low-priority room and at a joined favourite low-priority room. -/
theorem tag_weight_precedence_witness :
    room_to_tag_weight
      { exRoomSilent with state := RoomState.invited, is_favourite := true } true true = 0 ∧
    room_to_tag_weight { exRoomSilent with is_favourite := true } true true = 1 :=
  ⟨tag_weight_precedence.1 true true _ rfl,
   tag_weight_precedence.2 { exRoomSilent with is_favourite := true } (by decide) rfl rfl⟩

theorem lexJoin_head_lt (s : Sorter) (rest : List Sorter) (l r : RoomListItem)
    (h : s l r = Ordering.lt) :
    new_sorter_lexicographic (s :: rest) l r = Ordering.lt := by
  simp [new_sorter_lexicographic, List.map_cons, h, lexJoin]

theorem tag_weight_ge_two_of_plain (room : RoomListItem) (bury : Bool)
    (hstate : room.state = RoomState.joined) (hfav : room.is_favourite = false) :
    2 ≤ room_to_tag_weight room true bury := by
  rw [room_to_tag_weight, hstate, hfav]
  simp only [Bool.and_false]
  split_ifs <;> simp_all

/-- C5: with pin_favourites and by_unread enabled, the canonical sorter
stack orders an invited room B before a joined favourite room C before a
joined non-favourite room A, whatever the remaining configuration flags
and room fields are. -/
theorem scenario_tag_orders_invite_favourite (bury cgu wsu els : Bool)
    (ra rb rc : RoomListItem)
    (hAstate : ra.state = RoomState.joined) (hAfav : ra.is_favourite = false)
    (_hAunread : ra.num_unread_messages = 3)
    (hBstate : rb.state = RoomState.invited)
    (hCstate : rc.state = RoomState.joined) (hCfav : rc.is_favourite = true)
    (_hCunread : rc.num_unread_messages = 0)
    (hBC : rb.room_id ≠ rc.room_id) (hCA : rc.room_id ≠ ra.room_id)
    (hBA : rb.room_id ≠ ra.room_id) :
    get_sc_sort_box
      { by_unread := true, pin_favorites := true, bury_low_priority := bury,
        client_generated_unread := cgu, with_silent_unread := wsu } els rb rc =
      Ordering.lt ∧
    get_sc_sort_box
      { by_unread := true, pin_favorites := true, bury_low_priority := bury,
        client_generated_unread := cgu, with_silent_unread := wsu } els rc ra =
      Ordering.lt ∧
    get_sc_sort_box
      { by_unread := true, pin_favorites := true, bury_low_priority := bury,
        client_generated_unread := cgu, with_silent_unread := wsu } els rb ra =
      Ordering.lt := by
  have wB : room_to_tag_weight rb true bury = 0 := by
    simp [room_to_tag_weight, hBstate]
  have wC : room_to_tag_weight rc true bury = 1 := by
    rw [room_to_tag_weight, hCstate, hCfav]
    simp
  have wA := tag_weight_ge_two_of_plain ra bury hAstate hAfav
  have tBC : new_sorter_tag true bury rb rc = Ordering.lt := by
    simp only [new_sorter_tag, TagMatcher.matches, if_neg hBC, wB, wC]
    decide
  have tCA : new_sorter_tag true bury rc ra = Ordering.lt := by
    simp only [new_sorter_tag, TagMatcher.matches, if_neg hCA, wC]
    exact Nat.compare_eq_lt.mpr (by omega)
  have tBA : new_sorter_tag true bury rb ra = Ordering.lt := by
    simp only [new_sorter_tag, TagMatcher.matches, if_neg hBA, wB]
    exact Nat.compare_eq_lt.mpr (by omega)
  refine ⟨?_, ?_, ?_⟩
  · exact lexJoin_head_lt _ _ _ _ tBC
  · exact lexJoin_head_lt _ _ _ _ tCA
  · exact lexJoin_head_lt _ _ _ _ tBA

/-- Witness for the scenario ordering at the three concrete scenario rooms
with the remaining flags disabled. -/
theorem scenario_tag_orders_invite_favourite_witness :
    exRoomA.state = RoomState.joined ∧ exRoomA.is_favourite = false ∧
    exRoomA.num_unread_messages = 3 ∧ exRoomB.state = RoomState.invited ∧
    exRoomC.state = RoomState.joined ∧ exRoomC.is_favourite = true ∧
    exRoomC.num_unread_messages = 0 ∧
    (get_sc_sort_box
      { by_unread := true, pin_favorites := true, bury_low_priority := false,
        client_generated_unread := false, with_silent_unread := false } false
      exRoomB exRoomC = Ordering.lt ∧
     get_sc_sort_box
      { by_unread := true, pin_favorites := true, bury_low_priority := false,
        client_generated_unread := false, with_silent_unread := false } false
      exRoomC exRoomA = Ordering.lt ∧
     get_sc_sort_box
      { by_unread := true, pin_favorites := true, bury_low_priority := false,
        client_generated_unread := false, with_silent_unread := false } false
      exRoomB exRoomA = Ordering.lt) :=
  ⟨rfl, rfl, rfl, rfl, rfl, rfl, rfl,
   scenario_tag_orders_invite_favourite false false false false exRoomA exRoomB exRoomC
     rfl rfl rfl rfl rfl rfl rfl (by decide) (by decide) (by decide)⟩

/-- Lookup through two nesting levels of BTreeMaps. -/
def btmGet2 {V : Type u} (outer : List (String × List (String × V))) (k k2 : String) :
    Option V :=
  btmGet ((btmGet outer k).getD []) k2

/-- Lookup through three nesting levels of BTreeMaps. -/
def btmGet3 {V : Type u} (outer : List (String × List (String × List (String × V))))
    (k k2 k3 : String) : Option V :=
  btmGet2 ((btmGet outer k).getD []) k2 k3

/-- Binding count at the second nesting level. -/
def btmKeyCount2 {V : Type u} (outer : List (String × List (String × V))) (k k2 : String) :
    Nat :=
  btmKeyCount ((btmGet outer k).getD []) k2

/-- Binding count at the third nesting level. -/
def btmKeyCount3 {V : Type u} (outer : List (String × List (String × List (String × V))))
    (k k2 k3 : String) : Nat :=
  btmKeyCount2 ((btmGet outer k).getD []) k2 k3

theorem btmNodupKeys_nil {V : Type u} : btmNodupKeys ([] : List (String × V)) := by
  simp [btmNodupKeys, btmKeys]

theorem btmNodupKeys_getD {V : Type u} (outer : List (String × List (String × V)))
    (k : String) (h : btmNodupKeys2 outer) : btmNodupKeys ((btmGet outer k).getD []) := by
  rcases hg : btmGet outer k with _ | m
  · simpa using btmNodupKeys_nil
  · exact h.2 (k, m) (btmGet_mem _ _ _ hg)

theorem btmNodupKeys2_getD {V : Type u}
    (outer : List (String × List (String × List (String × V)))) (k : String)
    (h : btmNodupKeys3 outer) : btmNodupKeys2 ((btmGet outer k).getD []) := by
  rcases hg : btmGet outer k with _ | m
  · exact ⟨btmNodupKeys_nil, by simp⟩
  · exact h.2 (k, m) (btmGet_mem _ _ _ hg)

theorem btm_lww1 {V : Type u} (m : List (String × V)) (k : String) (v1 v2 : V)
    (h : btmNodupKeys m) :
    btmGet (btmInsert (btmInsert m k v1) k v2) k = some v2 ∧
    btmKeyCount (btmInsert (btmInsert m k v1) k v2) k = 1 :=
  ⟨btmGet_insert_self _ _ _,
   btmKeyCount_insert_self _ _ _ (btmNodupKeys_insert _ _ _ h)⟩

theorem btm_lww2 {V : Type u} (outer : List (String × List (String × V))) (k k2 : String)
    (v1 v2 : V) (h : btmNodupKeys2 outer) :
    btmGet2 (btmAlter (btmAlter outer k (fun o => btmInsert (o.getD []) k2 v1)) k
      (fun o => btmInsert (o.getD []) k2 v2)) k k2 = some v2 ∧
    btmKeyCount (btmAlter (btmAlter outer k (fun o => btmInsert (o.getD []) k2 v1)) k
      (fun o => btmInsert (o.getD []) k2 v2)) k = 1 ∧
    btmKeyCount2 (btmAlter (btmAlter outer k (fun o => btmInsert (o.getD []) k2 v1)) k
      (fun o => btmInsert (o.getD []) k2 v2)) k k2 = 1 := by
  have hin : btmNodupKeys ((btmGet outer k).getD []) := btmNodupKeys_getD outer k h
  have g1 : btmGet (btmAlter outer k (fun o => btmInsert (o.getD []) k2 v1)) k =
      some (btmInsert ((btmGet outer k).getD []) k2 v1) := btmGet_alter_self _ _ _
  have g2 : btmGet (btmAlter (btmAlter outer k (fun o => btmInsert (o.getD []) k2 v1)) k
      (fun o => btmInsert (o.getD []) k2 v2)) k =
      some (btmInsert (btmInsert ((btmGet outer k).getD []) k2 v1) k2 v2) := by
    rw [btmGet_alter_self, g1]
    rfl
  have hcounts := btm_lww1 ((btmGet outer k).getD []) k2 v1 v2 hin
  refine ⟨?_, ?_, ?_⟩
  · rw [btmGet2, g2]
    exact hcounts.1
  · exact btmKeyCount_alter_self _ _ _ (btmNodupKeys_alter _ _ _ h.1)
  · rw [btmKeyCount2, g2]
    exact hcounts.2

theorem btm_lww3 {V : Type u} (outer : List (String × List (String × List (String × V))))
    (k k2 k3 : String) (v1 v2 : V) (h : btmNodupKeys3 outer) :
    btmGet3 (btmAlter (btmAlter outer k
        (fun o => btmAlter (o.getD []) k2 (fun o2 => btmInsert (o2.getD []) k3 v1))) k
        (fun o => btmAlter (o.getD []) k2 (fun o2 => btmInsert (o2.getD []) k3 v2)))
      k k2 k3 = some v2 ∧
    btmKeyCount (btmAlter (btmAlter outer k
        (fun o => btmAlter (o.getD []) k2 (fun o2 => btmInsert (o2.getD []) k3 v1))) k
        (fun o => btmAlter (o.getD []) k2 (fun o2 => btmInsert (o2.getD []) k3 v2))) k = 1 ∧
    btmKeyCount2 (btmAlter (btmAlter outer k
        (fun o => btmAlter (o.getD []) k2 (fun o2 => btmInsert (o2.getD []) k3 v1))) k
        (fun o => btmAlter (o.getD []) k2 (fun o2 => btmInsert (o2.getD []) k3 v2))) k k2 = 1 ∧
    btmKeyCount3 (btmAlter (btmAlter outer k
        (fun o => btmAlter (o.getD []) k2 (fun o2 => btmInsert (o2.getD []) k3 v1))) k
        (fun o => btmAlter (o.getD []) k2 (fun o2 => btmInsert (o2.getD []) k3 v2)))
      k k2 k3 = 1 := by
  have hmid : btmNodupKeys2 ((btmGet outer k).getD []) := btmNodupKeys2_getD outer k h
  have g1 : btmGet (btmAlter outer k
      (fun o => btmAlter (o.getD []) k2 (fun o2 => btmInsert (o2.getD []) k3 v1))) k =
      some (btmAlter ((btmGet outer k).getD []) k2
        (fun o2 => btmInsert (o2.getD []) k3 v1)) := btmGet_alter_self _ _ _
  have g2 : btmGet (btmAlter (btmAlter outer k
      (fun o => btmAlter (o.getD []) k2 (fun o2 => btmInsert (o2.getD []) k3 v1))) k
      (fun o => btmAlter (o.getD []) k2 (fun o2 => btmInsert (o2.getD []) k3 v2))) k =
      some (btmAlter (btmAlter ((btmGet outer k).getD []) k2
          (fun o2 => btmInsert (o2.getD []) k3 v1)) k2
        (fun o2 => btmInsert (o2.getD []) k3 v2)) := by
    rw [btmGet_alter_self, g1]
    rfl
  have hmidres := btm_lww2 ((btmGet outer k).getD []) k2 k3 v1 v2 hmid
  refine ⟨?_, ?_, ?_, ?_⟩
  · rw [btmGet3, g2]
    exact hmidres.1
  · exact btmKeyCount_alter_self _ _ _ (btmNodupKeys_alter _ _ _ h.1)
  · rw [btmKeyCount2, g2]
    exact hmidres.2.1
  · rw [btmKeyCount3, g2]
    exact hmidres.2.2

/-- C3: within one batch a second addition under the same composite key
overwrites the first: for add_state_event the key is (room id, event type,
state key), for add_redaction it is (room id, redacted event id), for
add_room_account_data it is (room id, event type), for add_receipts it is
the room id; after the two additions the batch holds exactly the second
value at that key, with a single binding at every level of the composite
key. -/
theorem state_changes_last_write_wins {A : Type} (b : StateChanges A) (hwf : b.WFKeys)
    (room ty sk red_id ad_ty : String) (v1 v2 w1 w2 a1 a2 c1 c2 : A) :
    (btmGet3 ((b.add_state_event room ⟨ty, sk⟩ v1).add_state_event room ⟨ty, sk⟩ v2).state
        room ty sk = some v2 ∧
     btmKeyCount ((b.add_state_event room ⟨ty, sk⟩ v1).add_state_event
        room ⟨ty, sk⟩ v2).state room = 1 ∧
     btmKeyCount2 ((b.add_state_event room ⟨ty, sk⟩ v1).add_state_event
        room ⟨ty, sk⟩ v2).state room ty = 1 ∧
     btmKeyCount3 ((b.add_state_event room ⟨ty, sk⟩ v1).add_state_event
        room ⟨ty, sk⟩ v2).state room ty sk = 1) ∧
    (btmGet2 ((b.add_redaction room red_id w1).add_redaction
        room red_id w2).redactions room red_id = some w2 ∧
     btmKeyCount ((b.add_redaction room red_id w1).add_redaction
        room red_id w2).redactions room = 1 ∧
     btmKeyCount2 ((b.add_redaction room red_id w1).add_redaction
        room red_id w2).redactions room red_id = 1) ∧
    (btmGet2 ((b.add_room_account_data room ad_ty a1).add_room_account_data
        room ad_ty a2).room_account_data room ad_ty = some a2 ∧
     btmKeyCount ((b.add_room_account_data room ad_ty a1).add_room_account_data
        room ad_ty a2).room_account_data room = 1 ∧
     btmKeyCount2 ((b.add_room_account_data room ad_ty a1).add_room_account_data
        room ad_ty a2).room_account_data room ad_ty = 1) ∧
    (btmGet ((b.add_receipts room c1).add_receipts room c2).receipts room = some c2 ∧
     btmKeyCount ((b.add_receipts room c1).add_receipts room c2).receipts room = 1) := by
  obtain ⟨hacc, hpres, hprof, hdel, hstate, hrad, hri, hrcpt, hredact, hstrip, hamb⟩ := hwf
  refine ⟨?_, ?_, ?_, ?_⟩
  · simpa [StateChanges.add_state_event] using
      btm_lww3 b.state room ty sk v1 v2 hstate
  · simpa [StateChanges.add_redaction] using
      btm_lww2 b.redactions room red_id w1 w2 hredact
  · simpa [StateChanges.add_room_account_data] using
      btm_lww2 b.room_account_data room ad_ty a1 a2 hrad
  · simpa [StateChanges.add_receipts] using
      btm_lww1 b.receipts room c1 c2 hrcpt

theorem mkDefault_WFKeys (A : Type) : (StateChanges.mkDefault A).WFKeys := by
  refine ⟨?_, ?_, ⟨?_, ?_⟩, ?_, ⟨?_, ?_⟩, ⟨?_, ?_⟩, ?_, ?_, ⟨?_, ?_⟩, ⟨?_, ?_⟩, ⟨?_, ?_⟩⟩ <;>
    simp [StateChanges.mkDefault, btmNodupKeys, btmNodupKeys2, btmNodupKeys3, btmKeys]

/-- Witness for last-write-wins on the empty batch with concrete keys and
payloads. -/
theorem state_changes_last_write_wins_witness :
    (StateChanges.mkDefault Nat).WFKeys ∧
    ((btmGet3 (((StateChanges.mkDefault Nat).add_state_event "!r:x" ⟨"m.room.name", ""⟩
          11).add_state_event "!r:x" ⟨"m.room.name", ""⟩ 12).state
        "!r:x" "m.room.name" "" = some 12 ∧
      btmKeyCount (((StateChanges.mkDefault Nat).add_state_event "!r:x" ⟨"m.room.name", ""⟩
          11).add_state_event "!r:x" ⟨"m.room.name", ""⟩ 12).state "!r:x" = 1 ∧
      btmKeyCount2 (((StateChanges.mkDefault Nat).add_state_event "!r:x" ⟨"m.room.name", ""⟩
          11).add_state_event "!r:x" ⟨"m.room.name", ""⟩ 12).state "!r:x" "m.room.name" = 1 ∧
      btmKeyCount3 (((StateChanges.mkDefault Nat).add_state_event "!r:x" ⟨"m.room.name", ""⟩
          11).add_state_event "!r:x" ⟨"m.room.name", ""⟩ 12).state
        "!r:x" "m.room.name" "" = 1) ∧
     (btmGet2 (((StateChanges.mkDefault Nat).add_redaction "!r:x" "$e1"
          21).add_redaction "!r:x" "$e1" 22).redactions "!r:x" "$e1" = some 22 ∧
      btmKeyCount (((StateChanges.mkDefault Nat).add_redaction "!r:x" "$e1"
          21).add_redaction "!r:x" "$e1" 22).redactions "!r:x" = 1 ∧
      btmKeyCount2 (((StateChanges.mkDefault Nat).add_redaction "!r:x" "$e1"
          21).add_redaction "!r:x" "$e1" 22).redactions "!r:x" "$e1" = 1) ∧
     (btmGet2 (((StateChanges.mkDefault Nat).add_room_account_data "!r:x" "m.tag"
          31).add_room_account_data "!r:x" "m.tag" 32).room_account_data
        "!r:x" "m.tag" = some 32 ∧
      btmKeyCount (((StateChanges.mkDefault Nat).add_room_account_data "!r:x" "m.tag"
          31).add_room_account_data "!r:x" "m.tag" 32).room_account_data "!r:x" = 1 ∧
      btmKeyCount2 (((StateChanges.mkDefault Nat).add_room_account_data "!r:x" "m.tag"
          31).add_room_account_data "!r:x" "m.tag" 32).room_account_data
        "!r:x" "m.tag" = 1) ∧
     (btmGet (((StateChanges.mkDefault Nat).add_receipts "!r:x" 41).add_receipts
        "!r:x" 42).receipts "!r:x" = some 42 ∧
      btmKeyCount (((StateChanges.mkDefault Nat).add_receipts "!r:x" 41).add_receipts
        "!r:x" 42).receipts "!r:x" = 1)) :=
  ⟨mkDefault_WFKeys Nat,
   state_changes_last_write_wins (StateChanges.mkDefault Nat) (mkDefault_WFKeys Nat)
     "!r:x" "m.room.name" "" "$e1" "m.tag" 11 12 21 22 31 32 41 42⟩

/-- The mutation trace of one set_or_reload_session run. -/
def sessionTrace {A : Type} (be : Backend A) (migrate : RoomInfo → RoomInfo × Bool)
    (meta : SessionMeta) (st : StoreState) : List StoreEvent :=
  (set_or_reload_session be migrate meta st).2.2

/-- The mutation trace of one forget_room run. -/
def forgetTrace {A : Type} (be : Backend A) (room_id : String) (st : StoreState) :
    List StoreEvent :=
  (forget_room be room_id st).2.2

theorem insert_index_lt_session_index (l : List RoomInfo) (tok : Option String) :
    ∀ (i j : Nat) (r : String),
      (l.map (fun info => StoreEvent.insertRoom info.room_id) ++
        [StoreEvent.setSyncToken tok, StoreEvent.setSessionMeta]).get? i =
        some (StoreEvent.insertRoom r) →
      (l.map (fun info => StoreEvent.insertRoom info.room_id) ++
        [StoreEvent.setSyncToken tok, StoreEvent.setSessionMeta]).get? j =
        some StoreEvent.setSessionMeta →
      i < j := by
  induction l with
  | nil =>
    intro i j r h1 h2
    exfalso
    simp only [List.map_nil, List.nil_append] at h1
    rcases i with _ | i
    · simp at h1
    · rcases i with _ | i <;> simp at h1
  | cons a l ih =>
    intro i j r h1 h2
    simp only [List.map_cons, List.cons_append] at h1 h2
    rcases i with _ | i
    · rcases j with _ | j
      · simp at h2
      · exact Nat.succ_pos j
    · rcases j with _ | j
      · simp at h2
      · simp only [List.get?_cons_succ] at h1 h2
        exact Nat.succ_lt_succ (ih i j r h1 h2)

theorem sessionTrace_shape {A : Type} (be : Backend A)
    (migrate : RoomInfo → RoomInfo × Bool) (meta : SessionMeta) (st : StoreState) :
    sessionTrace be migrate meta st = [] ∨
    (∃ infos : List RoomInfo, sessionTrace be migrate meta st =
      infos.map (fun info => StoreEvent.insertRoom info.room_id)) ∨
    (∃ (infos : List RoomInfo) (tok : Option String), sessionTrace be migrate meta st =
      infos.map (fun info => StoreEvent.insertRoom info.room_id) ++
        [StoreEvent.setSyncToken tok]) ∨
    (∃ (infos : List RoomInfo) (tok : Option String), sessionTrace be migrate meta st =
      infos.map (fun info => StoreEvent.insertRoom info.room_id) ++
        [StoreEvent.setSyncToken tok, StoreEvent.setSessionMeta]) := by
  unfold sessionTrace set_or_reload_session
  rcases hload : load_room_infos be migrate with e | p
  · exact Or.inl rfl
  · obtain ⟨infos, w⟩ := p
    rcases hkv : be.get_kv_sync_token with e | tok
    · exact Or.inr (Or.inl ⟨infos, rfl⟩)
    · rcases hsess : st.session_meta with _ | m
      · refine Or.inr (Or.inr (Or.inr ⟨infos, tok, ?_⟩))
        simp [List.append_assoc]
      · exact Or.inr (Or.inr (Or.inl ⟨infos, tok, rfl⟩))

/-- C2: in every run of set_or_reload_session, every room insertion into
the observable table occurs strictly before the commit of the session
identity in the mutation trace. -/
theorem session_meta_committed_after_room_inserts {A : Type} (be : Backend A)
    (migrate : RoomInfo → RoomInfo × Bool) (meta : SessionMeta) (st : StoreState)
    (i j : Nat) (r : String)
    (h1 : (sessionTrace be migrate meta st).get? i = some (StoreEvent.insertRoom r))
    (h2 : (sessionTrace be migrate meta st).get? j = some StoreEvent.setSessionMeta) :
    i < j := by
  rcases sessionTrace_shape be migrate meta st with hs | ⟨infos, hs⟩ | ⟨infos, tok, hs⟩ |
    ⟨infos, tok, hs⟩ <;> rw [hs] at h1 h2
  · simp at h2
  · exfalso
    have hmem := List.get?_mem h2
    simp at hmem
  · exfalso
    have hmem := List.get?_mem h2
    simp at hmem
  · exact insert_index_lt_session_index infos tok i j r h1 h2

/-- Witness for the trace ordering: a run with one loaded room, whose trace
is the insertion, the sync-token write and the session commit. -/
theorem session_meta_committed_after_room_inserts_witness :
    (sessionTrace exBackendOk exMigrateNone exMeta exStoreEmpty).get? 0 =
      some (StoreEvent.insertRoom "!a:x") ∧
    (sessionTrace exBackendOk exMigrateNone exMeta exStoreEmpty).get? 2 =
      some StoreEvent.setSessionMeta ∧
    (0 : Nat) < 2 :=
  ⟨by decide, by decide,
   session_meta_committed_after_room_inserts exBackendOk exMigrateNone exMeta exStoreEmpty
     0 2 "!a:x" (by decide) (by decide)⟩

/-- C4: forget_room removes from the durable store first — in every trace
the durable removal strictly precedes the in-memory removal — and when the
durable removal fails the error is returned with the whole store state,
including the room table, unchanged. -/
theorem forget_room_fail_closed {A : Type} (be : Backend A) (room_id : String)
    (st : StoreState) :
    (∀ e : StoreErr, be.remove_room room_id = Except.error e →
      forget_room be room_id st =
        (Except.error e, st, [StoreEvent.durableRemoveRoom room_id])) ∧
    (∀ i j : Nat,
      (forgetTrace be room_id st).get? i = some (StoreEvent.durableRemoveRoom room_id) →
      (forgetTrace be room_id st).get? j = some (StoreEvent.removeRoomFromTable room_id) →
      i < j) := by
  constructor
  · intro e he
    simp [forget_room, he]
  · intro i j h1 h2
    unfold forgetTrace forget_room at h1 h2
    rcases hr : be.remove_room room_id with e | u <;> simp only [hr] at h1 h2
    · rcases j with _ | j <;> simp at h2
    · rcases j with _ | j
      · simp at h2
      · rcases i with _ | i
        · exact Nat.succ_pos j
        · exfalso
          rcases i with _ | i <;> simp at h1

/-- Witness for forget_room: a failing durable removal leaves the ready
store untouched, and a successful run orders the two removals. -/
theorem forget_room_fail_closed_witness :
    forget_room exBackendRemoveFail "!a:x" exStoreReady =
      (Except.error "io", exStoreReady, [StoreEvent.durableRemoveRoom "!a:x"]) ∧
    (0 : Nat) < 1 :=
  ⟨(forget_room_fail_closed exBackendRemoveFail "!a:x" exStoreReady).1 "io" rfl,
   (forget_room_fail_closed exBackendOk "!a:x" exStoreReady).2 0 1 (by decide) (by decide)⟩

/-- C8: get_or_create_room panics before a session identity is committed;
with a session, a present room is returned as the existing handle with the
table untouched, and an absent room is freshly constructed and inserted. -/
theorem get_or_create_room_contract (room_id : String) (room_type : RoomState)
    (st : StoreState) (meta : SessionMeta) :
    (st.session_meta = none →
      get_or_create_room room_id room_type st =
        PanicOr.panicked "Creating room while not being logged in") ∧
    (st.session_meta = some meta → ∀ room : Room, btmGet st.rooms room_id = some room →
      get_or_create_room room_id room_type st = PanicOr.ok (room, st)) ∧
    (st.session_meta = some meta → btmGet st.rooms room_id = none →
      get_or_create_room room_id room_type st =
        PanicOr.ok (Room.fresh meta.user_id room_id room_type,
          { st with rooms := btmInsert st.rooms room_id (Room.fresh meta.user_id room_id room_type) })) := by
  refine ⟨?_, ?_, ?_⟩
  · intro h
    simp [get_or_create_room, h]
  · intro h room hroom
    simp [get_or_create_room, h, obsMapGetOrCreate, hroom]
    rw [← h]
  · intro h hnone
    simp [get_or_create_room, h, obsMapGetOrCreate, hnone]

/-- Witness for get_or_create_room: the panic on the fresh store, the
existing handle on the ready store, and the fresh insertion for an unknown
room id. -/
theorem get_or_create_room_contract_witness :
    get_or_create_room "!a:x" RoomState.joined exStoreEmpty =
      PanicOr.panicked "Creating room while not being logged in" ∧
    get_or_create_room "!a:x" RoomState.joined exStoreReady =
      PanicOr.ok (Room.restored "@u:x" exInfo, exStoreReady) ∧
    get_or_create_room "!b:x" RoomState.joined exStoreReady =
      PanicOr.ok (Room.fresh "@u:x" "!b:x" RoomState.joined,
        { exStoreReady with rooms := btmInsert exStoreReady.rooms "!b:x" (Room.fresh "@u:x" "!b:x" RoomState.joined) }) :=
  ⟨(get_or_create_room_contract "!a:x" RoomState.joined exStoreEmpty exMeta).1 rfl,
   (get_or_create_room_contract "!a:x" RoomState.joined exStoreReady exMeta).2.1 rfl
     (Room.restored "@u:x" exInfo) (by decide),
   (get_or_create_room_contract "!b:x" RoomState.joined exStoreReady exMeta).2.2 rfl
     (by decide)⟩

theorem btmGet_isSome_insert {V : Type u} (m : List (String × V)) (k k' : String) (v : V)
    (h : (btmGet m k).isSome = true) : (btmGet (btmInsert m k' v) k).isSome = true := by
  by_cases hk : k = k'
  · subst hk
    simp [btmGet_insert_self]
  · rw [btmInsert, btmGet_alter_ne _ _ _ _ hk]
    exact h

theorem btmGet_isSome_foldl_restore (u : String) (l : List RoomInfo)
    (m : List (String × Room)) (rid : String)
    (h : (∃ info ∈ l, info.room_id = rid) ∨ (btmGet m rid).isSome = true) :
    (btmGet (l.foldl (fun rs info =>
      btmInsert rs (Room.restored u info).room_id (Room.restored u info)) m)
      rid).isSome = true := by
  induction l generalizing m with
  | nil =>
    rcases h with ⟨info, hmem, _⟩ | h
    · simp at hmem
    · simpa using h
  | cons a l ih =>
    simp only [List.foldl_cons]
    apply ih
    rcases h with ⟨info, hmem, heq⟩ | hs
    · rcases List.mem_cons.mp hmem with h1 | h1
      · right
        subst h1
        rw [← heq]
        have : (Room.restored u info).room_id = info.room_id := rfl
        rw [← this, btmGet_insert_self]
        rfl
      · exact Or.inl ⟨info, h1, heq⟩
    · exact Or.inr (btmGet_isSome_insert _ _ _ _ hs)

theorem load_ok_shape {A : Type} (be : Backend A) (migrate : RoomInfo → RoomInfo × Bool)
    (infos : List RoomInfo) (hload : be.get_room_infos = Except.ok infos) :
    ∃ w, load_room_infos be migrate =
      Except.ok ((infos.map migrate).map Prod.fst, w) := by
  unfold load_room_infos
  rw [hload]
  by_cases hemp : (((infos.map migrate).filter Prod.snd).map Prod.fst).isEmpty
  · exact ⟨none, by simp [hemp]⟩
  · rcases hs : be.save_changes
      (migrationChanges A (((infos.map migrate).filter Prod.snd).map Prod.fst)) with e | u
    · exact ⟨some e, by simp [hemp, hs]⟩
    · exact ⟨none, by simp [hemp, hs]⟩

/-- C1: with a cooperating backend, the first call on a fresh store
succeeds, commits the session identity and populates the room table with
every loaded record, and a second call on the resulting instance panics
instead of returning an error. -/
theorem set_session_first_ok_second_panics {A : Type} (be : Backend A)
    (migrate : RoomInfo → RoomInfo × Bool) (meta meta2 : SessionMeta) (st : StoreState)
    (infos : List RoomInfo) (tok : Option String)
    (hload : be.get_room_infos = Except.ok infos)
    (hkv : be.get_kv_sync_token = Except.ok tok)
    (hfresh : st.session_meta = none) :
    (set_or_reload_session be migrate meta st).1 = PanicOr.ok () ∧
    (set_or_reload_session be migrate meta st).2.1.session_meta = some meta ∧
    (∀ info ∈ infos,
      (btmGet (set_or_reload_session be migrate meta st).2.1.rooms
        ((migrate info).1.room_id)).isSome = true) ∧
    (set_or_reload_session be migrate meta2
      (set_or_reload_session be migrate meta st).2.1).1 =
      PanicOr.panicked "Session Meta was already set" := by
  obtain ⟨w, hw⟩ := load_ok_shape be migrate infos hload
  refine ⟨?_, ?_, ?_, ?_⟩
  · simp [set_or_reload_session, hw, hkv, hfresh]
  · simp [set_or_reload_session, hw, hkv, hfresh]
  · intro info hmem
    simp only [set_or_reload_session, hw, hkv, hfresh]
    apply btmGet_isSome_foldl_restore
    exact Or.inl ⟨(migrate info).1, by
      simp only [List.map_map]
      exact List.mem_map.mpr ⟨info, hmem, rfl⟩, rfl⟩
  · simp [set_or_reload_session, hw, hkv, hfresh]

/-- Witness for the lifecycle claim with the one-room backend. -/
theorem set_session_first_ok_second_panics_witness :
    exBackendOk.get_room_infos = Except.ok [exInfo] ∧
    exBackendOk.get_kv_sync_token = Except.ok none ∧
    exStoreEmpty.session_meta = none ∧
    (set_or_reload_session exBackendOk exMigrateNone exMeta exStoreEmpty).1 =
      PanicOr.ok () ∧
    (set_or_reload_session exBackendOk exMigrateNone exMeta exStoreEmpty).2.1.session_meta =
      some exMeta ∧
    (btmGet (set_or_reload_session exBackendOk exMigrateNone exMeta
      exStoreEmpty).2.1.rooms "!a:x").isSome = true ∧
    (set_or_reload_session exBackendOk exMigrateNone exMeta2
      (set_or_reload_session exBackendOk exMigrateNone exMeta exStoreEmpty).2.1).1 =
      PanicOr.panicked "Session Meta was already set" := by
  have h := set_session_first_ok_second_panics exBackendOk exMigrateNone exMeta exMeta2
    exStoreEmpty [exInfo] none rfl rfl rfl
  exact ⟨rfl, rfl, rfl, h.1, h.2.1, h.2.2.1 exInfo (by simp), h.2.2.2⟩

/-- C9: when re-persisting migrated room records fails, load_room_infos
still returns Ok carrying the migrated values (the failure is only
remembered as a logged warning), and set_or_reload_session still succeeds,
commits the session and builds the rooms from the migrated records. -/
theorem migration_resave_failure_nonfatal {A : Type} (be : Backend A)
    (migrate : RoomInfo → RoomInfo × Bool) (meta : SessionMeta) (st : StoreState)
    (infos : List RoomInfo) (e : StoreErr) (tok : Option String)
    (hload : be.get_room_infos = Except.ok infos)
    (hmig : (infos.map migrate).filter Prod.snd ≠ [])
    (hsave : be.save_changes
      (migrationChanges A (((infos.map migrate).filter Prod.snd).map Prod.fst)) =
      Except.error e)
    (hkv : be.get_kv_sync_token = Except.ok tok)
    (hfresh : st.session_meta = none) :
    load_room_infos be migrate =
      Except.ok ((infos.map migrate).map Prod.fst, some e) ∧
    (set_or_reload_session be migrate meta st).1 = PanicOr.ok () ∧
    (set_or_reload_session be migrate meta st).2.1.session_meta = some meta ∧
    (∀ info ∈ infos,
      (btmGet (set_or_reload_session be migrate meta st).2.1.rooms
        ((migrate info).1.room_id)).isSome = true) := by
  have hemp : (((infos.map migrate).filter Prod.snd).map Prod.fst).isEmpty = false := by
    simp only [List.isEmpty_eq_false, ne_eq, List.map_eq_nil_iff]
    exact hmig
  have hw : load_room_infos be migrate =
      Except.ok ((infos.map migrate).map Prod.fst, some e) := by
    unfold load_room_infos
    rw [hload]
    simp [hemp, hsave]
  refine ⟨hw, ?_, ?_, ?_⟩
  · simp [set_or_reload_session, hw, hkv, hfresh]
  · simp [set_or_reload_session, hw, hkv, hfresh]
  · intro info hmem
    simp only [set_or_reload_session, hw, hkv, hfresh]
    apply btmGet_isSome_foldl_restore
    exact Or.inl ⟨(migrate info).1, by
      simp only [List.map_map]
      exact List.mem_map.mpr ⟨info, hmem, rfl⟩, rfl⟩

/-- Witness for the non-fatal migration persistence failure with the
failing-save backend and a migration that rewrites the record. -/
theorem migration_resave_failure_nonfatal_witness :
    exBackendSaveFail.get_room_infos = Except.ok [exInfo] ∧
    ([exInfo].map exMigrateBump).filter Prod.snd ≠ [] ∧
    exBackendSaveFail.get_kv_sync_token = Except.ok none ∧
    exStoreEmpty.session_meta = none ∧
    load_room_infos exBackendSaveFail exMigrateBump =
      Except.ok (([exInfo].map exMigrateBump).map Prod.fst, some "disk full") ∧
    (set_or_reload_session exBackendSaveFail exMigrateBump exMeta exStoreEmpty).1 =
      PanicOr.ok () ∧
    (set_or_reload_session exBackendSaveFail exMigrateBump exMeta
      exStoreEmpty).2.1.session_meta = some exMeta ∧
    (btmGet (set_or_reload_session exBackendSaveFail exMigrateBump exMeta
      exStoreEmpty).2.1.rooms "!a:x").isSome = true := by
  have h := migration_resave_failure_nonfatal exBackendSaveFail exMigrateBump exMeta
    exStoreEmpty [exInfo] "disk full" none rfl (by decide) rfl rfl rfl
  exact ⟨rfl, by decide, rfl, rfl, h.1, h.2.1, h.2.2.1, h.2.2.2 exInfo (by simp)⟩
